import Mathlib

/-!
# Verification of the kkpy.io readers

Shallow embedding of `src/kkpy/io.py` (functions `read_aws`, `read_2dvd_rho`,
`read_mxpol_rhi_with_hc`, `read_dem`) and proofs about its behaviour.

Modelling conventions:
* numeric values are rationals (`ℚ`); a floating-point NaN is `none` in
  `Option ℚ`;
* a 2-D array is a list of rows (`List (List _)`); numpy's transpose and
  boolean-mask indexing are embedded explicitly (`npTransposeO`, `maskFilter`);
* Python's `x in s` substring test on strings is `isSubstrOf`;
* a Python crash (NameError, IndexError, unbound local) makes the embedded
  function return `none` / `Except.error`.
-/

namespace KKPy

/-! ## Generic helpers -/

/-- Python's `needle in hay` substring containment test on strings. -/
def isSubstrOf (needle hay : String) : Bool :=
  decide (needle.data <:+: hay.data)

/-- A 2-D float array possibly holding NaNs (`none`). -/
abbrev HMat := List (List (Option ℚ))

/-- A 2-D float array without NaNs. -/
abbrev QMat := List (List ℚ)

/-- Element access into an `HMat`; out-of-bounds reads default to `none`. -/
def mget (m : HMat) (r c : Nat) : Option ℚ :=
  (m.getD r []).getD c none

/-- Element access into a `QMat`; out-of-bounds reads default to `0`. -/
def mgetQ (m : QMat) (r c : Nat) : ℚ :=
  (m.getD r []).getD c 0

/-- numpy boolean-mask indexing along the first axis: keep the entries of
`xs` whose mask entry is `true`. -/
def maskFilter {α : Type} : List Bool → List α → List α
  | true :: ms, x :: xs => x :: maskFilter ms xs
  | false :: ms, _ :: xs => maskFilter ms xs
  | _, _ => []

/-- numpy `.T` on a 2-D array (row/column index swap). -/
def npTransposeO (m : HMat) : HMat :=
  (List.range (m.headD []).length).map fun j =>
    (List.range m.length).map fun i => mget m i j

/-- Scan step of numpy `argmax` over a float vector: a new value replaces the
current maximum when `current < new` holds, and a NaN becomes (and stays) the
maximum as soon as it is seen. -/
def npArgmaxGo : List (Option ℚ) → Nat → Nat → Option ℚ → Nat
  | [], _, best, _ => best
  | x :: rest, i, best, mp =>
    match mp with
    | none => best
    | some m =>
      match x with
      | none => npArgmaxGo rest (i + 1) i none
      | some v =>
        if m < v then npArgmaxGo rest (i + 1) i (some v)
        else npArgmaxGo rest (i + 1) best (some m)

/-- numpy `argmax` over a float vector: index of the first maximum, or of the
first NaN when one is present. -/
def npArgmax : List (Option ℚ) → Nat
  | [] => 0
  | x :: rest => npArgmaxGo rest 1 0 x

/-! ## read_aws (io.py lines 23-73)

The pandas dataframe of one AWS_MIN file is a list of rows; the column names
used by the function body are the twelve rescaled columns plus the station
code `stn`; `extra` stands for any further column, which the body never
touches. -/

structure AWSRow where
  wd : ℚ
  ws : ℚ
  t : ℚ
  rh : ℚ
  pa : ℚ
  ps : ℚ
  rn60m_acc : ℚ
  rn1d : ℚ
  rn15m : ℚ
  rn60m : ℚ
  wds : ℚ
  wss : ℚ
  stn : ℚ
  extra : ℚ
deriving DecidableEq

/-- Lines 56-67 of io.py: divide the twelve named columns by 10. -/
def scaleAwsRow (r : AWSRow) : AWSRow :=
  { r with
    wd := r.wd / 10, ws := r.ws / 10, t := r.t / 10, rh := r.rh / 10,
    pa := r.pa / 10, ps := r.ps / 10, rn60m_acc := r.rn60m_acc / 10,
    rn1d := r.rn1d / 10, rn15m := r.rn15m / 10, rn60m := r.rn60m / 10,
    wds := r.wds / 10, wss := r.wss / 10 }

/-- The (name, value) view of a row, used to talk about "which fields". -/
def awsFieldList (r : AWSRow) : List (String × ℚ) :=
  [("wd", r.wd), ("ws", r.ws), ("t", r.t), ("rh", r.rh), ("pa", r.pa),
   ("ps", r.ps), ("rn60m_acc", r.rn60m_acc), ("rn1d", r.rn1d),
   ("rn15m", r.rn15m), ("rn60m", r.rn60m), ("wds", r.wds), ("wss", r.wss),
   ("stn", r.stn), ("extra", r.extra)]

/-- Names of the fields at which two rows differ. -/
def awsChangedFields (a b : AWSRow) : List String :=
  ((awsFieldList a).zip (awsFieldList b)).filterMap
    (fun p => if p.1.2 ≠ p.2.2 then some p.1.1 else none)

/-- Line 55 + lines 56-68 of io.py, for one file: rescale the twelve columns
of every row, keep the rows with station code 100, take the first
(`.values.tolist()[0]`; `none` models the IndexError when no row matches). -/
def processAwsFile (rows : List AWSRow) : Option AWSRow :=
  ((rows.map scaleAwsRow).filter (fun r => r.stn == 100)).head?

/-- The `for file in filearr_1d` loop of io.py lines 54-68: one selected row
per file, crashing (`none`) when some file has no station-100 row. -/
def awsAssemble : List (List AWSRow) → Option (List AWSRow)
  | [] => some []
  | f :: fs =>
    match processAwsFile f, awsAssemble fs with
    | some r, some rest => some (r :: rest)
    | _, _ => none

/-- Module-level names bound in kkpy/io.py (imports of lines 16-21 and the
four function definitions). -/
def ioModuleNames : List String :=
  ["np", "datetime", "glob", "scipy", "pyart", "wrl",
   "read_aws", "read_2dvd_rho", "read_mxpol_rhi_with_hc", "read_dem"]

/-- Names bound inside `read_aws` before line 53 runs: its three parameters
and the local `list_aws` assigned on line 51. -/
def readAwsLocalNames : List String :=
  ["time", "datadir", "date_range", "list_aws"]

/-- Names read by line 53 of io.py
(`np.sort(glob.glob(aws_dir+YYYYMMDD[:6]+...))`), in evaluation order. -/
def awsLine53Refs : List String :=
  ["np", "glob", "aws_dir", "YYYYMMDD"]

/-- Names read by the loop body of lines 54-68 that are neither locals nor
module globals would include `pd` (line 55) and `names` (line 55). -/
def awsLoopRefs : List String :=
  ["pd", "names"]

/-- `read_aws` (io.py lines 23-73).  Python resolves each name of a statement
when the statement runs; the first name that is neither a local nor a module
global raises a NameError.  `fs` stands for the parsed contents the files
would have had. -/
def readAws (time : List ℤ) (datadir : String) (date_range : Bool)
    (fs : List (List AWSRow)) : Except String (List AWSRow) :=
  match awsLine53Refs.find?
      (fun n => !(ioModuleNames.contains n || readAwsLocalNames.contains n)) with
  | some n => .error ("NameError: name " ++ n ++ " is not defined")
  | none =>
    match awsLoopRefs.find?
        (fun n => !(ioModuleNames.contains n || readAwsLocalNames.contains n)) with
    | some n => .error ("NameError: name " ++ n ++ " is not defined")
    | none =>
      match awsAssemble fs with
      | some rows => .ok rows
      | none => .error "IndexError: list index out of range"

/-! ## read_2dvd_rho (io.py lines 77-141) -/

/-- One parsed row of a 2DVD file (columns of line 122 that survive the drops
of lines 133-134, plus the raw `hhmm`). -/
structure DvdRow where
  hhmm : ℤ
  vel : ℚ
  area : ℚ
  deq : ℚ
deriving DecidableEq

/-- A discovered file: its filename-embedded date and its parsed rows. -/
structure DvdFile where
  fdate : ℤ
  rows : List DvdRow
deriving DecidableEq

/-- One row of the returned dataframe: the derived timestamp pieces
(lines 126-131) and the kept data columns. -/
structure DvdOut where
  day : ℤ
  hour : ℤ
  minute : ℤ
  vel : ℚ
  area : ℚ
  deq : ℚ
deriving DecidableEq

/-- Lines 125-135 of io.py for one file: derive hour/minute from `hhmm`,
attach the file date, keep `VEL`, `AREA`, `Deq`. -/
def processDvdFile (f : DvdFile) : List DvdOut :=
  f.rows.map fun row =>
    { day := f.fdate, hour := row.hhmm / 100, minute := row.hhmm % 100,
      vel := row.vel, area := row.area, deq := row.deq }

/-- Lines 112-118 of io.py: when `time` has two elements and `date_range`
holds, keep only the files whose date `d` satisfies
`time[0] <= d < time[1]` (line 117). -/
def dvdKeptFiles (files : List DvdFile) (time : List ℤ) (date_range : Bool) :
    List DvdFile :=
  if time.length = 2 ∧ date_range then
    files.filter fun f =>
      decide (time.getD 0 0 ≤ f.fdate) && decide (f.fdate < time.getD 1 0)
  else files

/-- Names read by the comprehension body of io.py line 106
(`np.int(os.path.basename(x)[-27:-23])`), in evaluation order; the body runs
once per discovered file, so with no discovered file no name is read. -/
def dvdLine106Refs : List String :=
  ["np", "os"]

/-- Names read by io.py line 125 (`pd.read_csv(file, ...)`), run once per
kept file. -/
def dvdLine125Refs : List String :=
  ["pd"]

/-- Names read by io.py line 138 (`pd.concat(dflist, ...)`), which always
runs. -/
def dvdLine138Refs : List String :=
  ["pd"]

/-- Names bound inside `read_2dvd_rho` when line 106 runs: its three
parameters and the local `filearr` of line 105.  The later locals
(`yyyy_filearr`, ..., `dflist`) never include `os` or `pd` either. -/
def read2dvdLocalNames : List String :=
  ["time", "datadir", "date_range", "filearr"]

def unboundInRead2dvd (n : String) : Bool :=
  !(ioModuleNames.contains n || read2dvdLocalNames.contains n)

/-- `read_2dvd_rho` (io.py lines 104-141).  The module never imports `os` or
pandas, so with at least one discovered file the date-extraction
comprehension of line 106 raises a NameError on `os` before the date filter;
with no discovered file, `pd.concat` on line 138 raises a NameError on `pd`.
The filtering and per-file parsing that lines 112-135 would perform sit in
the unreachable branch (`dvdKeptFiles`, `processDvdFile`). -/
def read2dvdRho (files : List DvdFile) (time : List ℤ) (date_range : Bool) :
    Except String (List DvdOut) :=
  match (files.flatMap fun _ => dvdLine106Refs).find? unboundInRead2dvd with
  | some n => .error ("NameError: name " ++ n ++ " is not defined")
  | none =>
    let kept := dvdKeptFiles files time date_range
    match (kept.flatMap fun _ => dvdLine125Refs).find? unboundInRead2dvd with
    | some n => .error ("NameError: name " ++ n ++ " is not defined")
    | none =>
      match dvdLine138Refs.find? unboundInRead2dvd with
      | some n => .error ("NameError: name " ++ n ++ " is not defined")
      | none => .ok (kept.flatMap processDvdFile)

/-! ## read_mxpol_rhi_with_hc (io.py lines 144-251) -/

/-- The result of `scipy.io.loadmat(hcfile_mat)`: a Python dict, i.e. an
insertion-ordered association list from key to 2-D array. -/
structure HCBundle where
  items : List (String × HMat)

/-- The loop of io.py lines 179-185: skip keys containing `'_'`; a key that
is a substring of `"AG"` starts the stack afresh; any other key is appended
to the stack.  The accumulator is `none` while `HC3d_proportion` is unbound,
and appending to an unbound stack is a Python UnboundLocalError (`none`
result). -/
def stackLayers : List (String × HMat) → Option (List HMat) → Option (List HMat)
  | [], st => st
  | (k, v) :: rest, st =>
    if k.data.contains '_' then stackLayers rest st
    else if isSubstrOf k "AG" then stackLayers rest (some [v])
    else
      match st with
      | none => none
      | some s => stackLayers rest (some (s ++ [v]))

/-- Lines 186-187 of io.py: per-gate argmax across the stacked layers, then
NaN wherever layer 0 of the stack is NaN. -/
def computeHC (stack : List HMat) : HMat :=
  let L0 := stack.headD []
  (List.range L0.length).map fun r =>
    (List.range (L0.headD []).length).map fun c =>
      if (mget L0 r c).isNone then none
      else some ((npArgmax (stack.map fun L => mget L r c) : ℕ) : ℚ)

/-- Dict lookup `HC_proportion[_str]` (io.py line 200). -/
def lookupHC (hc : HCBundle) (k : String) : Option HMat :=
  (hc.items.find? (fun p => p.1 == k)).map (fun p => p.2)

/-- Elevation gate of io.py line 171: `np.logical_and(El>5, El<175)`. -/
def inRangeEl (e : ℚ) : Bool :=
  decide (5 < e) && decide (e < 175)

/-- The variables and attributes read from the RHI NetCDF file. -/
structure MxpolVol where
  El : List ℚ
  Rng : List ℚ
  Az : List ℚ
  Tm : List ℚ
  Zdr : HMat
  Zh : HMat
  Kdp : HMat
deriving DecidableEq

/-- The fields of the returned py-ART radar object that io.py populates. -/
structure Radar where
  elevation : List ℚ
  azimuth : List ℚ
  fixed_angle : List ℚ
  rng : List ℚ
  time : List ℚ
  fAG : HMat
  fCR : HMat
  fIH : HMat
  fLR : HMat
  fMH : HMat
  fRN : HMat
  fRP : HMat
  fWS : HMat
  fHC : HMat
  fKDP : HMat
  fZDR : HMat
  fZHH : HMat
deriving DecidableEq

/-- The radar-assembly body of `read_mxpol_rhi_with_hc` (io.py lines
170-251): what the function would do with the parsed volume and bundle after
line 169, which in fact never succeeds (see `readMxpol`).  `none` models a
crash inside this body: an unbound `HC3d_proportion` in the stacking loop, a
missing habit key at a `HC_proportion[_str]` lookup, or `azimuth[0]` on an
empty filtered azimuth (line 241). -/
def assembleRadar (vol : MxpolVol) (hc : HCBundle) : Option Radar := do
  let stack ← stackLayers hc.items none
  let hcMat := computeHC stack
  let ag ← lookupHC hc "AG"
  let cr ← lookupHC hc "CR"
  let ih ← lookupHC hc "IH"
  let lr ← lookupHC hc "LR"
  let mh ← lookupHC hc "MH"
  let rn ← lookupHC hc "RN"
  let rp ← lookupHC hc "RP"
  let ws ← lookupHC hc "WS"
  let mask := vol.El.map inRangeEl
  let el := maskFilter mask vol.El
  let zdr := maskFilter mask (npTransposeO vol.Zdr)
  let zh := maskFilter mask (npTransposeO vol.Zh)
  let kdp := maskFilter mask (npTransposeO vol.Kdp)
  let az0 := maskFilter mask vol.Az
  let a0 ← az0.head?
  let az := if a0 < 0 then az0.map (fun a => a + 360) else az0
  pure
    { elevation := el, azimuth := az, fixed_angle := az, rng := vol.Rng,
      time := vol.Tm,
      fAG := ag, fCR := cr, fIH := ih, fLR := lr, fMH := mh, fRN := rn,
      fRP := rp, fWS := ws, fHC := hcMat, fKDP := kdp,
      fZDR := zdr.map (fun row => row.map (Option.map (fun v => v - 9 / 2))),
      fZHH := zh }

/-- Names read by io.py line 167 (`scipy.io.loadmat(hcfile_mat)`), in
evaluation order; both resolve (module import and parameter). -/
def mxpolLine167Refs : List String :=
  ["scipy", "hcfile_mat"]

/-- Names read by io.py line 169 (`Dataset(rhifile_nc, 'r')`), in evaluation
order: the callee `Dataset` is looked up before its argument. -/
def mxpolLine169Refs : List String :=
  ["Dataset", "rhifile_nc"]

/-- Names bound inside `read_mxpol_rhi_with_hc` when line 169 runs: its two
parameters and the local `HC_proportion` assigned on line 167. -/
def readMxpolLocalNames : List String :=
  ["rhifile_nc", "hcfile_mat", "HC_proportion"]

def unboundInReadMxpol (n : String) : Bool :=
  !(ioModuleNames.contains n || readMxpolLocalNames.contains n)

/-- `read_mxpol_rhi_with_hc` (io.py lines 144-251).  Line 167 resolves
`scipy` (a module import) and loads the classification bundle; line 169 then
reads the name `Dataset`, which is neither a parameter, a local, nor a
module global (netCDF4 is never imported), so every call raises a NameError
there — before the stacking loop, the HC computation, the elevation mask or
any field extraction.  The assembly that lines 170-251 would perform sits in
the unreachable branch (`assembleRadar`). -/
def readMxpol (vol : MxpolVol) (hc : HCBundle) : Except String Radar :=
  match mxpolLine167Refs.find? unboundInReadMxpol with
  | some n => .error ("NameError: name " ++ n ++ " is not defined")
  | none =>
    match mxpolLine169Refs.find? unboundInReadMxpol with
    | some n => .error ("NameError: name " ++ n ++ " is not defined")
    | none =>
      match assembleRadar vol hc with
      | some radar => .ok radar
      | none => .error "UnboundLocalError, KeyError or IndexError in the body"

/-- A classification bundle whose items appear in the documented order
AG, CR, IH, LR, MH, RN, RP, WS. -/
def docBundle (ag cr ih lr mh rn rp ws : HMat) : HCBundle :=
  ⟨[("AG", ag), ("CR", cr), ("IH", ih), ("LR", lr),
    ("MH", mh), ("RN", rn), ("RP", rp), ("WS", ws)]⟩

/-! ## read_dem (io.py lines 253-303) -/

def pyeongchangPath : String :=
  "/disk/WORKSPACE/kwonil/SRTM3_V2.1/TIF/pyeongchang_90m.tif"

def koreaPath : String :=
  "/disk/WORKSPACE/kwonil/SRTM3_V2.1/TIF/korea_90m.tif"

/-- Lines 286-294 of io.py: choose the raster to open.  `none` means the
local `ds` is left unbound (the invalid-area branch only prints). -/
def selectRasterPath (file : Option String) (area : String) : Option String :=
  match file with
  | some f => some f
  | none =>
    if isSubstrOf area "pyeongchang" then some pyeongchangPath
    else if isSubstrOf area "korea" then some koreaPath
    else none

/-- The triple returned by `wrl.georef.extract_raster_dataset(ds)`: raw
elevation, per-pixel (lon, lat) coordinates, spatial reference. -/
structure RasterData where
  dem : QMat
  coord : List (List (ℚ × ℚ))
  proj : String

/-- The four-tuple `read_dem` returns. -/
structure DemResult where
  dem : HMat
  lon : QMat
  lat : QMat
  proj : String
deriving DecidableEq

/-- Lines 299-300 of io.py: float conversion and `dem[dem <= 0] = nan`. -/
def demMask (raw : QMat) : HMat :=
  raw.map fun row => row.map fun v => if v ≤ 0 then none else some v

/-- Lines 299-301 of io.py: mask the non-positive values, then transpose. -/
def demProcess (raw : QMat) : HMat :=
  npTransposeO (demMask raw)

/-- `read_dem` (io.py lines 286-303).  The second component is the standard
output; when no raster was selected, `extract_raster_dataset(ds)` hits the
unbound local `ds` and the call fails (`none`) after the diagnostic print. -/
def readDem (file : Option String) (area : String)
    (rasterOf : String → RasterData) : Option DemResult × List String :=
  match selectRasterPath file area with
  | none => (none, ["Please check area argument"])
  | some p =>
    let rd := rasterOf p
    (some
      { dem := demProcess rd.dem,
        lon := rd.coord.map (fun row => row.map (fun q => q.1)),
        lat := rd.coord.map (fun row => row.map (fun q => q.2)),
        proj := rd.proj }, [])

/-! ## Helper lemmas -/

theorem getD_range_map {α : Type} (f : ℕ → α) (n r : ℕ) (d : α) (h : r < n) :
    ((List.range n).map f).getD r d = f r := by
  simp [List.getD_eq_getElem?_getD, List.getElem?_map, List.getElem?_range, h]

theorem getD_map_of_lt {α β : Type} (f : α → β) (l : List α) (i : ℕ)
    (h : i < l.length) (d : β) (d' : α) :
    (l.map f).getD i d = f (l.getD i d') := by
  simp [List.getD_eq_getElem?_getD, List.getElem?_map,
    List.getElem?_eq_getElem, h]

theorem maskFilter_map_self {α : Type} (p : α → Bool) (xs : List α) :
    maskFilter (xs.map p) xs = xs.filter p := by
  induction xs with
  | nil => rfl
  | cons x xs ih =>
    rw [List.map_cons]
    cases hp : p x <;> simp [maskFilter, List.filter_cons, hp, ih]

theorem maskFilter_map_length {α β : Type} (p : α → Bool) :
    ∀ (xs : List α) (ys : List β), ys.length = xs.length →
      (maskFilter (xs.map p) ys).length = (xs.filter p).length
  | [], [], _ => rfl
  | [], _ :: _, h => by simp at h
  | _ :: _, [], h => by simp at h
  | x :: xs, y :: ys, h => by
    have h' : ys.length = xs.length := by simpa using h
    rw [List.map_cons]
    cases hp : p x <;>
      simp [maskFilter, List.filter_cons, hp, maskFilter_map_length p xs ys h']

theorem npTransposeO_length (m : HMat) :
    (npTransposeO m).length = (m.headD []).length := by
  simp [npTransposeO]

theorem mget_npTransposeO (m : HMat) (i j : ℕ) (hi : i < m.length)
    (hj : j < (m.headD []).length) :
    mget (npTransposeO m) j i = mget m i j := by
  show ((npTransposeO m).getD j []).getD i none = _
  unfold npTransposeO
  rw [getD_range_map _ _ _ _ hj, getD_range_map _ _ _ _ hi]

theorem stackLayers_extend :
    ∀ (rest : List (String × HMat)) (st : List HMat),
      (∀ p ∈ rest, p.1.data.contains '_' = true ∨ isSubstrOf p.1 "AG" = false) →
      ∃ ext, stackLayers rest (some st) = some (st ++ ext)
  | [], st, _ => ⟨[], by simp [stackLayers]⟩
  | (k, v) :: rest, st, h => by
    have hk := h (k, v) (List.mem_cons_self _ _)
    have hrest := fun p hp => h p (List.mem_cons_of_mem _ hp)
    show ∃ ext,
      (if k.data.contains '_' then stackLayers rest (some st)
       else if isSubstrOf k "AG" then stackLayers rest (some [v])
       else stackLayers rest (some (st ++ [v]))) = some (st ++ ext)
    rcases hk with hu | hs
    · rw [if_pos hu]
      exact stackLayers_extend rest st hrest
    · by_cases hu : k.data.contains '_' = true
      · rw [if_pos hu]
        exact stackLayers_extend rest st hrest
      · rw [if_neg hu, if_neg (by simp [hs])]
        obtain ⟨ext, hext⟩ := stackLayers_extend rest (st ++ [v]) hrest
        exact ⟨v :: ext, by rw [hext]; simp [List.append_assoc]⟩

theorem mget_computeHC (stack : List HMat) (r c : ℕ)
    (hr : r < (stack.headD []).length)
    (hcc : c < ((stack.headD []).headD []).length) :
    mget (computeHC stack) r c =
      if (mget (stack.headD []) r c).isNone then none
      else some ((npArgmax (stack.map fun L => mget L r c) : ℕ) : ℚ) := by
  have h1 : computeHC stack =
      (List.range (stack.headD []).length).map fun r =>
        (List.range ((stack.headD []).headD []).length).map fun c =>
          if (mget (stack.headD []) r c).isNone then none
          else some ((npArgmax (stack.map fun L => mget L r c) : ℕ) : ℚ) := rfl
  show ((computeHC stack).getD r []).getD c none = _
  rw [h1, getD_range_map _ _ _ _ hr, getD_range_map _ _ _ _ hcc]

theorem npArgmaxGo_tail : ∀ (tail : List (Option ℚ)) (m : ℚ),
    (∀ x ∈ tail, ∃ v, x = some v ∧ v < m) →
    ∀ (i best : ℕ), npArgmaxGo tail i best (some m) = best
  | [], _, _, _, _ => rfl
  | x :: tail, m, h, i, best => by
    obtain ⟨v, rfl, hv⟩ := h x (List.mem_cons_self _ _)
    show (if m < v then npArgmaxGo tail (i + 1) i (some v)
          else npArgmaxGo tail (i + 1) best (some m)) = best
    rw [if_neg (not_lt.mpr hv.le)]
    exact npArgmaxGo_tail tail m (fun x hx => h x (List.mem_cons_of_mem _ hx)) _ _

theorem npArgmaxGo_strict : ∀ (l : List ℚ) (a : ℚ) (tail : List (Option ℚ)),
    (∀ v ∈ l, v < a) →
    (∀ x ∈ tail, ∃ v, x = some v ∧ v < a) →
    ∀ (i best : ℕ) (m : ℚ), m < a →
      npArgmaxGo (l.map some ++ some a :: tail) i best (some m) = i + l.length
  | [], a, tail, _, htail, i, best, m, hm => by
    show (if m < a then npArgmaxGo tail (i + 1) i (some a)
          else npArgmaxGo tail (i + 1) best (some m)) = i + List.length []
    rw [if_pos hm, npArgmaxGo_tail tail a htail]
    simp
  | v :: l, a, tail, hl, htail, i, best, m, hm => by
    have hv := hl v (List.mem_cons_self _ _)
    have hl' := fun w hw => hl w (List.mem_cons_of_mem _ hw)
    show (if m < v then npArgmaxGo (l.map some ++ some a :: tail) (i + 1) i (some v)
          else npArgmaxGo (l.map some ++ some a :: tail) (i + 1) best (some m)) =
      i + (v :: l).length
    by_cases hc : m < v
    · rw [if_pos hc, npArgmaxGo_strict l a tail hl' htail (i + 1) i v hv]
      simp; omega
    · rw [if_neg hc, npArgmaxGo_strict l a tail hl' htail (i + 1) best m hm]
      simp; omega

theorem npArgmax_five (a0 a1 a2 a3 a4 a5 a6 a7 : ℚ)
    (h0 : a0 < a5) (h1 : a1 < a5) (h2 : a2 < a5) (h3 : a3 < a5) (h4 : a4 < a5)
    (h6 : a6 < a5) (h7 : a7 < a5) :
    npArgmax [some a0, some a1, some a2, some a3, some a4, some a5,
      some a6, some a7] = 5 := by
  have h := npArgmaxGo_strict [a1, a2, a3, a4] a5 [some a6, some a7]
    (by intro v hv
        simp only [List.mem_cons, List.not_mem_nil, or_false] at hv
        rcases hv with rfl | rfl | rfl | rfl <;> assumption)
    (by intro x hx
        simp only [List.mem_cons, List.not_mem_nil, or_false] at hx
        rcases hx with rfl | rfl
        · exact ⟨a6, rfl, h6⟩
        · exact ⟨a7, rfl, h7⟩)
    1 0 a0 h0
  simpa [npArgmax] using h

theorem selectRasterPath_of_not (area : String)
    (hp : ¬ (area.data <:+: "pyeongchang".data))
    (hk : ¬ (area.data <:+: "korea".data)) :
    selectRasterPath none area = none := by
  simp [selectRasterPath, isSubstrOf, hp, hk]

theorem getD_mem_of_lt {α : Type} (l : List α) (i : ℕ) (d : α)
    (h : i < l.length) : l.getD i d ∈ l := by
  rw [List.getD_eq_getElem l d h]
  exact List.getElem_mem h

/-! ## Claims -/

/-- A 2DVD file dated 2017-12-24.  Dates are encoded as `yyyymmdd` integers,
which orders them the same way as the calendar dates involved. -/
def dvdFile1224 : DvdFile :=
  { fdate := 20171224, rows := [{ hhmm := 930, vel := 1, area := 2, deq := 3 }] }

/-- A 2DVD file dated 2017-12-25. -/
def dvdFile1225 : DvdFile :=
  { fdate := 20171225, rows := [{ hhmm := 100, vel := 4, area := 5, deq := 6 }] }

theorem dvdKeptFiles_nil (time : List ℤ) (date_range : Bool) :
    dvdKeptFiles [] time date_range = [] := by
  unfold dvdKeptFiles
  split <;> rfl

/-- C6: the file-selection logic of `read_2dvd_rho` (io.py lines 112-118)
keeps a discovered file exactly when its filename-embedded date `d`
satisfies `start ≤ d < end`, and on the 2017-12-24/25 fixture it keeps only
the 2017-12-24 file's rows — but the function itself never returns this (or
any) result: with at least one discovered file every call raises a NameError
on the unbound name `os` (io.py line 106) before the date filter runs, and
with no discovered file it raises one on `pd` (line 138). -/
theorem C6_date_range_filter :
    (∀ (files : List DvdFile) (time : List ℤ) (date_range : Bool),
      read2dvdRho files time date_range =
        Except.error (if files.isEmpty then "NameError: name pd is not defined"
          else "NameError: name os is not defined")) ∧
    read2dvdRho [dvdFile1224, dvdFile1225] [20171224, 20171225] true =
      Except.error "NameError: name os is not defined" ∧
    (∀ (files : List DvdFile) (s e : ℤ),
      dvdKeptFiles files [s, e] true =
        files.filter fun f => decide (s ≤ f.fdate) && decide (f.fdate < e)) ∧
    (dvdKeptFiles [dvdFile1224, dvdFile1225] [20171224, 20171225] true).flatMap
        processDvdFile = processDvdFile dvdFile1224 := by
  refine ⟨?_, rfl, fun files s e => rfl, by decide⟩
  intro files time date_range
  cases files with
  | nil =>
    show read2dvdRho [] time date_range = _
    unfold read2dvdRho
    rw [dvdKeptFiles_nil]
    rfl
  | cons f fs => rfl

/-- C9: every call to `read_aws` fails with a NameError on the unbound name
`aws_dir` while evaluating its first file-listing statement (io.py line 53),
before any file is read; consequently the `time`, `datadir` and `date_range`
arguments (and the on-disk data) never influence the result. -/
theorem C9_read_aws_name_error (time t2 : List ℤ) (datadir d2 : String)
    (date_range r2 : Bool) (fs fs2 : List (List AWSRow)) :
    readAws time datadir date_range fs =
      Except.error "NameError: name aws_dir is not defined" ∧
    readAws time datadir date_range fs = readAws t2 d2 r2 fs2 :=
  ⟨rfl, rfl⟩

/-- C10: preset selection in `read_dem` uses Python substring membership, not
equality: any substring of `"pyeongchang"` selects the pyeongchang raster,
any substring of `"korea"` that is not one of `"pyeongchang"` selects the
korea raster, and only strings that are substrings of neither reach the
invalid-area branch (no raster selected). -/
theorem C10_preset_substring (area : String) :
    (area.data <:+: "pyeongchang".data →
      selectRasterPath none area = some pyeongchangPath) ∧
    (¬ (area.data <:+: "pyeongchang".data) → area.data <:+: "korea".data →
      selectRasterPath none area = some koreaPath) ∧
    (¬ (area.data <:+: "pyeongchang".data) → ¬ (area.data <:+: "korea".data) →
      selectRasterPath none area = none) := by
  refine ⟨fun h => ?_, fun hp hk => ?_, fun hp hk => ?_⟩
  · simp [selectRasterPath, isSubstrOf, h]
  · simp [selectRasterPath, isSubstrOf, hp, hk]
  · exact selectRasterPath_of_not area hp hk

/-- C10 witness: `"chang"` and the empty string are substrings of
`"pyeongchang"` and select the pyeongchang raster; `"kor"` is a substring of
`"korea"` only and selects the korea raster; `"z"` is a substring of neither
and selects no raster. -/
theorem C10_preset_substring_witness :
    selectRasterPath none "chang" = some pyeongchangPath ∧
    selectRasterPath none "" = some pyeongchangPath ∧
    selectRasterPath none "kor" = some koreaPath ∧
    selectRasterPath none "z" = none :=
  ⟨(C10_preset_substring "chang").1 (by decide),
   (C10_preset_substring "").1 (by decide),
   (C10_preset_substring "kor").2.1 (by decide) (by decide),
   (C10_preset_substring "z").2.2 (by decide) (by decide)⟩

/-- C8: calling `read_dem` with `file=None` and an area that matches neither
preset prints the diagnostic `'Please check area argument'` and then fails on
the unbound raster handle `ds` instead of returning the four-tuple (`none`
result), whatever raster data the presets would have produced. -/
theorem C8_invalid_area (area : String) (rasterOf : String → RasterData)
    (hp : ¬ (area.data <:+: "pyeongchang".data))
    (hk : ¬ (area.data <:+: "korea".data)) :
    readDem none area rasterOf = (none, ["Please check area argument"]) := by
  unfold readDem
  rw [selectRasterPath_of_not area hp hk]

/-- C8 witness: the area `"z"` matches neither preset, and the call fails
with the diagnostic. -/
theorem C8_invalid_area_witness :
    readDem none "z" (fun _ => { dem := [], coord := [], proj := "" }) =
      (none, ["Please check area argument"]) :=
  C8_invalid_area "z" _ (by decide) (by decide)

/-- C7: in the grid returned by `read_dem`, every raw elevation value `≤ 0`
becomes NaN, every value `> 0` passes through unchanged, and the grid is the
transpose of the extracted raster: raw position `(i, j)` appears at `(j, i)`. -/
theorem C7_dem_mask_transpose (raw : QMat) (i j : ℕ)
    (hrect : ∀ row ∈ raw, row.length = (raw.headD []).length)
    (hi : i < raw.length) (hj : j < (raw.headD []).length) :
    (mgetQ raw i j ≤ 0 → mget (demProcess raw) j i = none) ∧
    (0 < mgetQ raw i j → mget (demProcess raw) j i = some (mgetQ raw i j)) := by
  have hlen : (demMask raw).length = raw.length := by simp [demMask]
  have hhead : ((demMask raw).headD []).length = (raw.headD []).length := by
    cases raw with
    | nil => simp at hi
    | cons r rs => simp [demMask]
  have hT : mget (demProcess raw) j i = mget (demMask raw) i j := by
    unfold demProcess
    exact mget_npTransposeO _ i j (by rw [hlen]; exact hi) (by rw [hhead]; exact hj)
  have hrow : (raw.getD i []).length = (raw.headD []).length :=
    hrect _ (getD_mem_of_lt raw i [] hi)
  have hcell : mget (demMask raw) i j =
      if mgetQ raw i j ≤ 0 then none else some (mgetQ raw i j) := by
    show ((demMask raw).getD i []).getD j none = _
    unfold demMask
    rw [getD_map_of_lt _ raw i hi [] [],
      getD_map_of_lt _ (raw.getD i []) j (by rw [hrow]; exact hj) none 0]
    rfl
  constructor
  · intro h
    rw [hT, hcell, if_pos h]
  · intro h
    rw [hT, hcell, if_neg (not_le.mpr h)]

/-- C7 witness: in the raw raster `[[-1, 2], [3, 0]]`, the value `-1` at
`(0,0)` becomes NaN at `(0,0)` of the transpose, and the value `2` at `(0,1)`
passes through to `(1,0)`. -/
theorem C7_dem_mask_transpose_witness :
    mget (demProcess [[-1, 2], [3, 0]]) 0 0 = none ∧
    mget (demProcess [[-1, 2], [3, 0]]) 1 0 = some 2 ∧
    mget (demProcess [[-1, 2], [3, 0]]) 0 1 = some 3 ∧
    mget (demProcess [[-1, 2], [3, 0]]) 1 1 = none :=
  ⟨(C7_dem_mask_transpose [[-1, 2], [3, 0]] 0 0 (by decide) (by decide)
      (by decide)).1 (by norm_num [mgetQ]),
   (C7_dem_mask_transpose [[-1, 2], [3, 0]] 0 1 (by decide) (by decide)
      (by decide)).2 (by norm_num [mgetQ]),
   (C7_dem_mask_transpose [[-1, 2], [3, 0]] 1 0 (by decide) (by decide)
      (by decide)).2 (by norm_num [mgetQ]),
   (C7_dem_mask_transpose [[-1, 2], [3, 0]] 1 1 (by decide) (by decide)
      (by decide)).1 (by norm_num [mgetQ])⟩

/-- A raw AWS row whose scaled columns all hold the on-disk value 10 and
whose station code is 100. -/
def awsRaw0 : AWSRow :=
  { wd := 10, ws := 10, t := 10, rh := 10, pa := 10, ps := 10, rn60m_acc := 10,
    rn1d := 10, rn15m := 10, rn60m := 10, wds := 10, wss := 10,
    stn := 100, extra := 10 }

/-- C4 counterexample: the per-file body of `read_aws` rescales twelve
fields, not eleven — on a row whose numeric fields are all 10, exactly the
twelve fields `wd, ws, t, rh, pa, ps, rn60m_acc, rn1d, rn15m, rn60m, wds,
wss` change. -/
theorem C4_counterexample :
    awsChangedFields awsRaw0 (scaleAwsRow awsRaw0) =
      ["wd", "ws", "t", "rh", "pa", "ps", "rn60m_acc", "rn1d", "rn15m",
       "rn60m", "wds", "wss"] ∧
    (awsChangedFields awsRaw0 (scaleAwsRow awsRaw0)).length ≠ 11 := by
  have h : awsChangedFields awsRaw0 (scaleAwsRow awsRaw0) =
      ["wd", "ws", "t", "rh", "pa", "ps", "rn60m_acc", "rn1d", "rn15m",
       "rn60m", "wds", "wss"] := by
    norm_num [awsChangedFields, awsFieldList, awsRaw0, scaleAwsRow,
      List.filterMap_cons]
  rw [h]
  exact ⟨rfl, by decide⟩

/-- What C4 (amended) asserts of a row selected by the per-file body of
`read_aws`: it comes from a raw station-100 row with the twelve known fields
divided by exactly 10 and every other field unchanged. -/
def C4Concl (rows : List AWSRow) (out : AWSRow) : Prop :=
  ∃ raw, raw ∈ rows ∧ raw.stn = 100 ∧ out = scaleAwsRow raw ∧
    out.wd = raw.wd / 10 ∧ out.ws = raw.ws / 10 ∧ out.t = raw.t / 10 ∧
    out.rh = raw.rh / 10 ∧ out.pa = raw.pa / 10 ∧ out.ps = raw.ps / 10 ∧
    out.rn60m_acc = raw.rn60m_acc / 10 ∧ out.rn1d = raw.rn1d / 10 ∧
    out.rn15m = raw.rn15m / 10 ∧ out.rn60m = raw.rn60m / 10 ∧
    out.wds = raw.wds / 10 ∧ out.wss = raw.wss / 10 ∧
    out.stn = raw.stn ∧ out.extra = raw.extra

/-- C4 (amended): every row the per-file body of `read_aws` selects equals a
raw on-disk row with twelve (not eleven) known numeric fields divided by
exactly 10; all other fields pass through unscaled. -/
theorem C4_aws_scaling (rows : List AWSRow) (out : AWSRow)
    (h : processAwsFile rows = some out) : C4Concl rows out := by
  unfold processAwsFile at h
  cases hl : (rows.map scaleAwsRow).filter (fun r => r.stn == 100) with
  | nil => rw [hl] at h; simp at h
  | cons a tl =>
    rw [hl] at h
    simp only [List.head?_cons, Option.some.injEq] at h
    subst h
    have ha : a ∈ (rows.map scaleAwsRow).filter (fun r => r.stn == 100) := by
      rw [hl]; exact List.mem_cons_self _ _
    obtain ⟨hmem, hstn⟩ := List.mem_filter.mp ha
    obtain ⟨raw, hraw, rfl⟩ := List.mem_map.mp hmem
    exact ⟨raw, hraw, by simpa [scaleAwsRow] using hstn, rfl, rfl, rfl, rfl,
      rfl, rfl, rfl, rfl, rfl, rfl, rfl, rfl, rfl, rfl, rfl⟩

/-- C4 witness: on a file holding the single station-100 row `awsRaw0`, the
selected row is its rescaling. -/
theorem C4_aws_scaling_witness :
    processAwsFile [awsRaw0] = some (scaleAwsRow awsRaw0) ∧
    C4Concl [awsRaw0] (scaleAwsRow awsRaw0) :=
  ⟨rfl, C4_aws_scaling [awsRaw0] (scaleAwsRow awsRaw0) rfl⟩

theorem processAwsFile_of_exists (f : List AWSRow)
    (hf : ∃ r ∈ f, r.stn = 100) :
    ∃ out, processAwsFile f = some out ∧ out.stn = 100 := by
  obtain ⟨r, hr, hstn⟩ := hf
  have hmem : scaleAwsRow r ∈ (f.map scaleAwsRow).filter (fun r => r.stn == 100) :=
    List.mem_filter.mpr ⟨List.mem_map_of_mem _ hr, by simpa [scaleAwsRow] using hstn⟩
  cases hl : (f.map scaleAwsRow).filter (fun r => r.stn == 100) with
  | nil => rw [hl] at hmem; simp at hmem
  | cons a tl =>
    refine ⟨a, ?_, ?_⟩
    · unfold processAwsFile; rw [hl]; rfl
    · have ha : a ∈ (f.map scaleAwsRow).filter (fun r => r.stn == 100) := by
        rw [hl]; exact List.mem_cons_self _ _
      simpa using (List.mem_filter.mp ha).2

/-- C5: when every parsed file has at least one station-100 row, `read_aws`'s
assembly loop returns exactly one row per parsed file, and every returned row
has station code 100 — also when a file mixes several station codes or
repeats code 100. -/
theorem C5_station_filter (files : List (List AWSRow))
    (h : ∀ f ∈ files, ∃ r ∈ f, r.stn = 100) :
    ∃ res, awsAssemble files = some res ∧ res.length = files.length ∧
      ∀ r ∈ res, r.stn = 100 := by
  induction files with
  | nil => exact ⟨[], rfl, rfl, by simp⟩
  | cons f fs ih =>
    obtain ⟨out, hout, hstn⟩ :=
      processAwsFile_of_exists f (h f (List.mem_cons_self _ _))
    obtain ⟨res, hres, hlen, hall⟩ := ih (fun g hg => h g (List.mem_cons_of_mem _ hg))
    refine ⟨out :: res, ?_, by simp [hlen], ?_⟩
    · unfold awsAssemble; rw [hout, hres]
    · intro r hr
      rcases List.mem_cons.mp hr with rfl | hr
      · exact hstn
      · exact hall r hr

/-- An AWS row with station code `s` and arbitrary fixed data. -/
def mkAwsRow (s : ℚ) : AWSRow :=
  { wd := 1, ws := 2, t := 3, rh := 4, pa := 5, ps := 6, rn60m_acc := 7,
    rn1d := 8, rn15m := 9, rn60m := 10, wds := 11, wss := 12,
    stn := s, extra := 13 }

/-- A file mixing a station-100 row with a station-90 row. -/
def awsMix1 : List AWSRow := [mkAwsRow 100, mkAwsRow 90]

/-- A file mixing a station-33 row with two station-100 rows. -/
def awsMix2 : List AWSRow := [mkAwsRow 33, mkAwsRow 100, mkAwsRow 100]

/-- C5 witness: two fixture files with mixed station codes yield exactly one
row per file, each with station code 100. -/
theorem C5_station_filter_witness :
    ∃ res, awsAssemble [awsMix1, awsMix2] = some res ∧
      res.length = [awsMix1, awsMix2].length ∧ ∀ r ∈ res, r.stn = 100 :=
  C5_station_filter [awsMix1, awsMix2] (by decide)

/-- A two-ray radar volume whose first ray sits at elevation 0° (outside the
gate mask) and whose second sits at 90° (inside). -/
def volC1 : MxpolVol :=
  { El := [0, 90], Rng := [0, 1], Az := [10, 20], Tm := [100, 200],
    Zdr := [[some 6, some 7]], Zh := [[some 1, some 2]], Kdp := [[some 3, some 4]] }

/-- A classification bundle in documented order whose layers have one gate
per ray of `volC1`. -/
def hcC1 : HCBundle :=
  docBundle [[some 1], [some 2]] [[some 0], [some 0]] [[some 0], [some 0]]
    [[some 0], [some 0]] [[some 0], [some 0]] [[some 0], [some 0]]
    [[some 0], [some 0]] [[some 0], [some 0]]

/-- C1 counterexample: at the concrete input `volC1`/`hcC1` the real
`read_mxpol_rhi_with_hc` returns no radar object at all (NameError on the
unbound `Dataset`, io.py line 169), so no call yields the masked fields the
claim describes; and in the field-assembly logic of lines 170-251 only one
of the two elevations lies in (5°, 175°), yet the assembled `time`, `AG` and
`HC` fields still hold both gates — the gate at elevation 0° ≤ 5° is not
excluded from every field. -/
theorem C1_counterexample :
    readMxpol volC1 hcC1 =
      Except.error "NameError: name Dataset is not defined" ∧
    ((assembleRadar volC1 hcC1).map fun r => r.time.length) = some 2 ∧
    ((assembleRadar volC1 hcC1).map fun r => r.fAG.length) = some 2 ∧
    ((assembleRadar volC1 hcC1).map fun r => r.fHC.length) = some 2 ∧
    ((assembleRadar volC1 hcC1).map fun r => r.elevation.length) = some 1 ∧
    (volC1.El.filter inRangeEl).length = 1 ∧
    volC1.El.getD 0 0 ≤ 5 := by
  refine ⟨rfl, ?_, ?_, ?_, ?_, ?_, ?_⟩ <;> decide

/-- What C1 (amended) asserts of a radar object assembled by the body of
`read_mxpol_rhi_with_hc` (lines 170-251, which no real call reaches): the
elevation gate mask (5°, 175°) is applied to the elevation, azimuth, ZHH,
ZDR and KDP fields (their gate count along the ray axis equals the number of
in-range elevations, and every kept elevation is strictly inside the
interval), while the 8 classification-proportion fields, the HC field and
the time array are taken without the mask (the proportion fields are the
bundle layers as-is, HC is computed from the unmasked stack, time is the
volume's raw time array). -/
def C1Concl (vol : MxpolVol) (hc : HCBundle) (radar : Radar) : Prop :=
  radar.elevation = vol.El.filter inRangeEl ∧
  (∀ e ∈ radar.elevation, 5 < e ∧ e < 175) ∧
  radar.azimuth.length = (vol.El.filter inRangeEl).length ∧
  radar.fZHH.length = (vol.El.filter inRangeEl).length ∧
  radar.fZDR.length = (vol.El.filter inRangeEl).length ∧
  radar.fKDP.length = (vol.El.filter inRangeEl).length ∧
  radar.time = vol.Tm ∧
  lookupHC hc "AG" = some radar.fAG ∧
  lookupHC hc "CR" = some radar.fCR ∧
  lookupHC hc "IH" = some radar.fIH ∧
  lookupHC hc "LR" = some radar.fLR ∧
  lookupHC hc "MH" = some radar.fMH ∧
  lookupHC hc "RN" = some radar.fRN ∧
  lookupHC hc "RP" = some radar.fRP ∧
  lookupHC hc "WS" = some radar.fWS ∧
  (∀ st, stackLayers hc.items none = some st → radar.fHC = computeHC st)

/-- C1 (amended): `read_mxpol_rhi_with_hc` never returns a radar object —
every call fails with a NameError on the unbound name `Dataset` (io.py line
169, netCDF4 never imported); and whenever its field-assembly body (lines
170-251) would produce a radar object from consistent arrays, the elevation
gate mask is applied to elevation, azimuth, ZHH, ZDR and KDP, but the
classification-proportion fields, HC and time are taken unmasked. -/
theorem C1_gate_mask :
    (∀ (vol : MxpolVol) (hc : HCBundle),
      readMxpol vol hc =
        Except.error "NameError: name Dataset is not defined") ∧
    (∀ (vol : MxpolVol) (hc : HCBundle) (radar : Radar),
      assembleRadar vol hc = some radar →
      vol.Az.length = vol.El.length →
      (vol.Zdr.headD []).length = vol.El.length →
      (vol.Zh.headD []).length = vol.El.length →
      (vol.Kdp.headD []).length = vol.El.length →
      C1Concl vol hc radar) := by
  refine ⟨fun vol hc => rfl, fun vol hc radar h hAz hZdr hZh hKdp => ?_⟩
  simp only [assembleRadar, Option.bind_eq_bind, Option.bind_eq_some, Option.pure_def,
    Option.some.injEq] at h
  obtain ⟨stack, hstack, ag, hag, cr, hcr, ihh, hih, lr, hlr, mh, hmh, rn, hrn,
    rp, hrp, ws, hws, a0, ha0, hrad⟩ := h
  subst hrad
  have hmaskEl : maskFilter (vol.El.map inRangeEl) vol.El = vol.El.filter inRangeEl :=
    maskFilter_map_self inRangeEl vol.El
  refine ⟨hmaskEl, ?_, ?_, ?_, ?_, ?_, rfl, hag, hcr, hih, hlr, hmh, hrn, hrp,
    hws, ?_⟩
  · intro e he
    rw [show (maskFilter (vol.El.map inRangeEl) vol.El) = vol.El.filter inRangeEl
      from hmaskEl] at he
    simpa [inRangeEl] using (List.mem_filter.mp he).2
  · have hlen : (maskFilter (vol.El.map inRangeEl) vol.Az).length =
        (vol.El.filter inRangeEl).length :=
      maskFilter_map_length inRangeEl vol.El vol.Az hAz
    by_cases h0 : a0 < 0 <;> simp [h0, List.length_map, hlen]
  · exact maskFilter_map_length inRangeEl vol.El (npTransposeO vol.Zh)
      (by rw [npTransposeO_length]; exact hZh)
  · rw [List.length_map]
    exact maskFilter_map_length inRangeEl vol.El (npTransposeO vol.Zdr)
      (by rw [npTransposeO_length]; exact hZdr)
  · exact maskFilter_map_length inRangeEl vol.El (npTransposeO vol.Kdp)
      (by rw [npTransposeO_length]; exact hKdp)
  · intro st hst
    have hss := hstack.symm.trans hst
    injection hss with he
    rw [← he]

/-- C1 witness: on the concrete two-ray volume `volC1` the call fails with
the NameError, and the amended claim holds of the radar object the assembly
body would produce. -/
theorem C1_gate_mask_witness :
    readMxpol volC1 hcC1 =
      Except.error "NameError: name Dataset is not defined" ∧
    C1Concl volC1 hcC1 ((assembleRadar volC1 hcC1).get (by decide)) :=
  ⟨C1_gate_mask.1 volC1 hcC1,
   C1_gate_mask.2 volC1 hcC1 _ (Option.some_get (by decide)).symm (by decide)
     (by decide) (by decide) (by decide)⟩

/-- A one-ray radar volume for exercising the HC computation. -/
def volC2 : MxpolVol :=
  { El := [90], Rng := [0], Az := [10], Tm := [0],
    Zdr := [[some 1]], Zh := [[some 1]], Kdp := [[some 1]] }

/-- A classification bundle whose dict iteration order is NOT the documented
one: RN comes right after AG.  Gate (0,0) has RN (value 9) as unique
maximum. -/
def hcBadOrder : HCBundle :=
  ⟨[("AG", [[some 0]]), ("RN", [[some 9]]), ("CR", [[some 1]]), ("IH", [[some 2]]),
    ("LR", [[some 3]]), ("MH", [[some 4]]), ("RP", [[some 5]]), ("WS", [[some 6]])]⟩

/-- C2 counterexample: at the concrete input `volC2`/`hcBadOrder` the real
`read_mxpol_rhi_with_hc` computes no HC at all (NameError on the unbound
`Dataset`, io.py line 169); and in the stacking logic of lines 179-187, on a
bundle whose layers share one shape but iterate in a non-documented order,
the HC at gate (0,0) is 1 (the stack position of RN), not 5 — even though
the arg-max in the fixed documented order AG, CR, IH, LR, MH, RN, RP, WS is
5 and RN is the unique maximum there. -/
theorem C2_counterexample :
    readMxpol volC2 hcBadOrder =
      Except.error "NameError: name Dataset is not defined" ∧
    ((assembleRadar volC2 hcBadOrder).map fun r => mget r.fHC 0 0) =
      some (some 1) ∧
    npArgmax [some 0, some 1, some 2, some 3, some 4, some 9, some 5, some 6] = 5 ∧
    (1 : ℚ) ≠ 5 := by
  refine ⟨rfl, by decide, by decide, by norm_num⟩

/-- C2 (amended): `read_mxpol_rhi_with_hc` never computes or returns HC —
every call fails with a NameError on the unbound name `Dataset` (io.py line
169); in the stacking logic of lines 179-209 the HC stack follows the
bundle's dict iteration order, and when the bundle lists its 8 habit layers
in the documented order AG(0), CR(1), IH(2), LR(3), MH(4), RN(5), RP(6),
WS(7), the assembled HC at every in-bounds gate whose AG value is not NaN is
the arg-max index across the 8 layers in that order; in particular it is 5
at a gate where the RN layer is the unique maximum. -/
theorem C2_hc_argmax :
    (∀ (vol : MxpolVol) (hc : HCBundle),
      readMxpol vol hc =
        Except.error "NameError: name Dataset is not defined") ∧
    (∀ (ag cr ihm lrm mhm rnm rpm wsm : HMat) (vol : MxpolVol)
        (radar : Radar) (r c : ℕ),
      assembleRadar vol (docBundle ag cr ihm lrm mhm rnm rpm wsm) = some radar →
      r < ag.length → c < (ag.headD []).length →
      (mget ag r c).isNone = false →
      mget radar.fHC r c =
        some ((npArgmax [mget ag r c, mget cr r c, mget ihm r c, mget lrm r c,
          mget mhm r c, mget rnm r c, mget rpm r c, mget wsm r c] : ℕ) : ℚ) ∧
      (∀ a0 a1 a2 a3 a4 a5 a6 a7 : ℚ,
        mget ag r c = some a0 → mget cr r c = some a1 → mget ihm r c = some a2 →
        mget lrm r c = some a3 → mget mhm r c = some a4 → mget rnm r c = some a5 →
        mget rpm r c = some a6 → mget wsm r c = some a7 →
        a0 < a5 → a1 < a5 → a2 < a5 → a3 < a5 → a4 < a5 → a6 < a5 → a7 < a5 →
        mget radar.fHC r c = some 5)) := by
  refine ⟨fun vol hc => rfl, ?_⟩
  intro ag cr ihm lrm mhm rnm rpm wsm vol radar r c h hr hcc hnn
  have hst : stackLayers (docBundle ag cr ihm lrm mhm rnm rpm wsm).items none =
      some [ag, cr, ihm, lrm, mhm, rnm, rpm, wsm] := rfl
  simp only [assembleRadar, Option.bind_eq_bind, Option.bind_eq_some, Option.pure_def,
    Option.some.injEq] at h
  obtain ⟨stack, hstack, ag2, hag, cr2, hcr, ih2, hih, lr2, hlr, mh2, hmh, rn2,
    hrn, rp2, hrp, ws2, hws, a0, ha0, hrad⟩ := h
  rw [hst] at hstack
  injection hstack with hstack
  subst hstack
  subst hrad
  have hcell : mget (computeHC [ag, cr, ihm, lrm, mhm, rnm, rpm, wsm]) r c =
      some ((npArgmax [mget ag r c, mget cr r c, mget ihm r c, mget lrm r c,
        mget mhm r c, mget rnm r c, mget rpm r c, mget wsm r c] : ℕ) : ℚ) := by
    rw [mget_computeHC [ag, cr, ihm, lrm, mhm, rnm, rpm, wsm] r c hr hcc]
    simp [hnn]
  refine ⟨hcell, ?_⟩
  intro a0' a1 a2 a3 a4 a5 a6 a7 e0 e1 e2 e3 e4 e5 e6 e7 l0 l1 l2 l3 l4 l6 l7
  rw [show (mget (computeHC [ag, cr, ihm, lrm, mhm, rnm, rpm, wsm]) r c =
      some 5) = _ from rfl]
  rw [hcell, e0, e1, e2, e3, e4, e5, e6, e7,
    npArgmax_five a0' a1 a2 a3 a4 a5 a6 a7 l0 l1 l2 l3 l4 l6 l7]
  norm_num

/-- A classification bundle in documented order whose gate (0,0) has the RN
layer (value 9) as unique maximum. -/
def hcDoc2 : HCBundle :=
  docBundle [[some 0]] [[some 1]] [[some 2]] [[some 3]] [[some 4]] [[some 9]]
    [[some 5]] [[some 6]]

/-- C2 witness: on a documented-order bundle where RN is the unique maximum
at gate (0,0), the call itself fails with the NameError, and the HC the
assembly body would compute there is 5. -/
theorem C2_hc_argmax_witness :
    readMxpol volC2 hcDoc2 =
      Except.error "NameError: name Dataset is not defined" ∧
    mget ((assembleRadar volC2 hcDoc2).get (by decide)).fHC 0 0 = some 5 :=
  ⟨C2_hc_argmax.1 volC2 hcDoc2,
   (C2_hc_argmax.2 [[some 0]] [[some 1]] [[some 2]] [[some 3]] [[some 4]]
        [[some 9]] [[some 5]] [[some 6]] volC2 _ 0 0
        (Option.some_get (by decide)).symm (by decide) (by decide) (by decide)).2
      0 1 2 3 4 9 5 6 rfl rfl rfl rfl rfl rfl rfl rfl
      (by norm_num) (by norm_num) (by norm_num) (by norm_num) (by norm_num)
      (by norm_num) (by norm_num)⟩

/-- The AG layer for the C3 failing input: its single gate is NaN. -/
def agC3 : HMat := [[none]]

/-- The remaining seven habit layers for the C3 failing input, all finite. -/
def restC3 : List (String × HMat) :=
  [("CR", [[some 1]]), ("IH", [[some 1]]), ("LR", [[some 1]]), ("MH", [[some 1]]),
   ("RN", [[some 1]]), ("RP", [[some 1]]), ("WS", [[some 1]])]

/-- A one-ray radar volume for the C3 failing input. -/
def volC3 : MxpolVol :=
  { El := [90], Rng := [0], Az := [10], Tm := [0],
    Zdr := [[some 1]], Zh := [[some 1]], Kdp := [[some 1]] }

/-- C3 (a claim the code's missing import defeats): the HC computation of
io.py lines 179-187 does make every in-bounds gate where the AG layer is NaN
a NaN HC gate, whatever the other layers hold — for any bundle that lists AG
first (as it must for the stacking loop not to crash) and whose later keys
neither contain `'_'` nor are substrings of `"AG"` — but the function never
returns it: evaluated at the concrete NaN-AG input, the call fails with a
NameError on the unbound name `Dataset` (io.py line 169). -/
theorem C3_ag_nan_propagates :
    readMxpol volC3 ⟨("AG", agC3) :: restC3⟩ =
      Except.error "NameError: name Dataset is not defined" ∧
    (∀ (ag : HMat) (rest : List (String × HMat)) (vol : MxpolVol)
        (radar : Radar) (r c : ℕ),
      (∀ p ∈ rest, p.1.data.contains '_' = true ∨ isSubstrOf p.1 "AG" = false) →
      assembleRadar vol ⟨("AG", ag) :: rest⟩ = some radar →
      r < ag.length → c < (ag.headD []).length →
      mget ag r c = none →
      mget radar.fHC r c = none) := by
  refine ⟨rfl, ?_⟩
  intro ag rest vol radar r c hrest h hr hcc hnan
  have hstep : stackLayers (("AG", ag) :: rest) none = stackLayers rest (some [ag]) :=
    rfl
  obtain ⟨ext, hext⟩ := stackLayers_extend rest [ag] hrest
  simp only [assembleRadar, Option.bind_eq_bind, Option.bind_eq_some, Option.pure_def,
    Option.some.injEq] at h
  obtain ⟨stack, hstack, ag2, hag, cr2, hcr, ih2, hih, lr2, hlr, mh2, hmh, rn2,
    hrn, rp2, hrp, ws2, hws, a0, ha0, hrad⟩ := h
  rw [hstep, hext] at hstack
  injection hstack with hstack
  subst hstack
  subst hrad
  show mget (computeHC ([ag] ++ ext)) r c = none
  rw [mget_computeHC ([ag] ++ ext) r c hr hcc]
  simp [hnan]

/-- C3 witness: with a NaN AG gate and finite values in all seven other
layers, the HC the assembly body would compute at that gate is NaN. -/
theorem C3_ag_nan_propagates_witness :
    mget ((assembleRadar volC3 ⟨("AG", agC3) :: restC3⟩).get (by decide)).fHC 0 0 =
      none :=
  C3_ag_nan_propagates.2 agC3 restC3 volC3 _ 0 0 (by decide)
    (Option.some_get (by decide)).symm (by decide) (by decide) rfl

end KKPy
